import Mathlib

/-!
Shallow embedding of the structured-capture bot (src/main.py):
a Discord message handler that classifies text via an LLM call
(`analyze_text`), previews the result with confirm/cancel buttons
(`NoteView`), and persists it to Google Keep (`KeepClient`).

External collaborators (the Groq LLM, the `json` parser, the gkeepapi
backend, the Discord gateway) are modelled as oracles: their outcomes are
explicit parameters, while every branch and state update of the
repository code itself is translated literally.
-/

/-- A Python value as it can appear in the `content` field of the JSON
dict returned by the LLM: a string, a list of strings, or `None`
(`dict.get` on a missing key).  Other JSON shapes (numbers, nested
objects) are outside the model; no claim depends on them. -/
inductive PyVal where
  | vStr (s : String)
  | vList (xs : List String)
  | vNone
deriving DecidableEq

/-- A Python exception raised by code outside the Keep client: we only
distinguish the `TypeError` raised by slicing `None` and opaque numbered
exceptions from collaborators. -/
inductive PyErr where
  | typeError (msg : String)
  | exc (n : Nat)
deriving DecidableEq

/-- An exception in the Keep/auth world (`gkeepapi` calls).  `syncFail`
and `authFail` carry a tag so distinct failures are distinguishable;
`noCredentials` is the exception raised by `login` itself when neither
credential mode is configured (src/main.py:50). -/
inductive KeepErr where
  | syncFail (n : Nat)
  | authFail (n : Nat)
  | noCredentials
deriving DecidableEq

/-- A call observed at the gkeepapi backend boundary, plus a `loginStart`
marker recording each entry into `KeepClient.login` (src/main.py:34).
The trace of these events is the ground truth for "how many times was
login re-run" and "was the sync retried". -/
inductive Ev where
  | sync
  | loginStart
  | authenticate (user secret : String)
  | createNote (title : String) (content : PyVal)
  | createList (title : String) (items : List (String × Bool))
deriving DecidableEq

/-- True exactly on the two mutating backend calls. -/
def isWrite : Ev → Bool
  | .createNote _ _ => true
  | .createList _ _ => true
  | _ => false

/-- The environment-sourced credential configuration (src/main.py:23-25).
`Option.none` models an unset variable; the empty string models a set
but empty one — both are falsy in Python. -/
structure Config where
  googleUser : Option String
  googleAppPassword : Option String
  googleMasterToken : Option String
deriving DecidableEq

/-- Python truthiness of an optional environment string. -/
def truthy : Option String → Bool
  | Option.none => false
  | some s => !s.isEmpty

/-- Whether either credential mode of `KeepClient.login` is configured. -/
def hasCreds (cfg : Config) : Bool :=
  truthy cfg.googleMasterToken || (truthy cfg.googleUser && truthy cfg.googleAppPassword)

/-- The local note object returned by `keep.createNote`. -/
structure Note where
  title : String
  content : PyVal
deriving DecidableEq

/-- The local list object returned by `keep.createList`. -/
structure GList where
  title : String
  items : List (String × Bool)
deriving DecidableEq

/-- `KeepClient.login` (src/main.py:34-54).  `auth` is the oracle outcome
of the backend `authenticate` call (`Option.none` = success).  On any
failure the method logs and re-raises the same exception.  Returns the
result together with the trace of backend events. -/
def loginTr (cfg : Config) (auth : Option KeepErr) : Except KeepErr Unit × List Ev :=
  if truthy cfg.googleMasterToken then
    ((match auth with
      | Option.none => Except.ok ()
      | some e => Except.error e),
     [Ev.loginStart, Ev.authenticate (cfg.googleUser.getD "") (cfg.googleMasterToken.getD "")])
  else if truthy cfg.googleUser && truthy cfg.googleAppPassword then
    ((match auth with
      | Option.none => Except.ok ()
      | some e => Except.error e),
     [Ev.loginStart, Ev.authenticate (cfg.googleUser.getD "") (cfg.googleAppPassword.getD "")])
  else
    (Except.error KeepErr.noCredentials, [Ev.loginStart])

/-- `KeepClient._ensure_sync` (src/main.py:56-64): sync; if the sync
raises, swallow that exception and call `login()` once.  A failure of
that login propagates (it is `login`'s own exception — the original sync
error is discarded by the `except` block). -/
def ensureSyncTr (cfg : Config) (pre auth : Option KeepErr) : Except KeepErr Unit × List Ev :=
  match pre with
  | Option.none => (Except.ok (), [Ev.sync])
  | some _ =>
    let r := loginTr cfg auth
    (r.1, Ev.sync :: r.2)

/-- `KeepClient._final_sync` (src/main.py:66-72): sync; re-raise any
failure. -/
def finalSyncTr (post : Option KeepErr) : Except KeepErr Unit × List Ev :=
  match post with
  | Option.none => (Except.ok (), [Ev.sync])
  | some e => (Except.error e, [Ev.sync])

/-- `KeepClient.create_note` (src/main.py:74-80): pre-sync, local
`createNote` mutation (always succeeds locally), post-sync.  `pre`,
`auth` and `post` are the oracle outcomes of the backend calls this
operation can make. -/
def create_note_tr (cfg : Config) (pre auth post : Option KeepErr)
    (title : String) (content : PyVal) : Except KeepErr Note × List Ev :=
  match ensureSyncTr cfg pre auth with
  | (Except.error e, tr) => (Except.error e, tr)
  | (Except.ok _, tr) =>
    let note : Note := ⟨title, content⟩
    let fin := finalSyncTr post
    match fin.1 with
    | Except.error e => (Except.error e, tr ++ [Ev.createNote title content] ++ fin.2)
    | Except.ok _ => (Except.ok note, tr ++ [Ev.createNote title content] ++ fin.2)

/-- `KeepClient.create_list` (src/main.py:82-89): pre-sync, convert each
item to an unchecked `(item, False)` pair, local `createList` mutation,
post-sync. -/
def create_list_tr (cfg : Config) (pre auth post : Option KeepErr)
    (title : String) (items : List String) : Except KeepErr GList × List Ev :=
  match ensureSyncTr cfg pre auth with
  | (Except.error e, tr) => (Except.error e, tr)
  | (Except.ok _, tr) =>
    let listItems := items.map (fun item => (item, false))
    let glist : GList := ⟨title, listItems⟩
    let fin := finalSyncTr post
    match fin.1 with
    | Except.error e => (Except.error e, tr ++ [Ev.createList title listItems] ++ fin.2)
    | Except.ok _ => (Except.ok glist, tr ++ [Ev.createList title listItems] ++ fin.2)

/-- The state of a `NoteView` (src/main.py:147-153) together with the
Discord message displaying it: the staged classification, whether the
buttons are disabled, the message text, and the ephemeral error
messages sent so far by failed confirm attempts. -/
structure ViewState where
  title : String
  content : PyVal
  noteType : String
  disabled : Bool
  messageText : String
  errorsSent : List KeepErr
deriving DecidableEq

/-- A fresh `NoteView(title, content, note_type)` as sent with the
preview message `"¿Guardar esta nota?"` (src/main.py:248-249). -/
def mkNoteView (title : String) (content : PyVal) (noteType : String) : ViewState :=
  ⟨title, content, noteType, false, "¿Guardar esta nota?", []⟩

/-- The `create_note` leg of `NoteView.confirm` (src/main.py:164-175 and
the shared `except` at 177-179): on success the buttons are disabled and
the message edited; on failure the view is left untouched and an
ephemeral error is sent. -/
def confirmNotePath (cfg : Config) (pre auth post : Option KeepErr)
    (s : ViewState) (textContent : PyVal) : ViewState × List Ev :=
  match create_note_tr cfg pre auth post s.title textContent with
  | (Except.ok _, tr) =>
    ({ s with disabled := true, messageText := "✅ **Nota Guardada**: " ++ s.title }, tr)
  | (Except.error e, tr) =>
    ({ s with errorsSent := s.errorsSent ++ [e] }, tr)

/-- The body of `NoteView.confirm` (src/main.py:156-179).  The Python
guard `note_type == LIST and isinstance(content, list)` is rendered by
matching on the content first; both conditions are pure so the order is
immaterial. -/
def confirmCallback (cfg : Config) (pre auth post : Option KeepErr)
    (s : ViewState) : ViewState × List Ev :=
  match s.content with
  | PyVal.vList xs =>
    if s.noteType = "LIST" then
      match create_list_tr cfg pre auth post s.title xs with
      | (Except.ok _, tr) =>
        ({ s with disabled := true, messageText := "✅ **Lista Guardada**: " ++ s.title }, tr)
      | (Except.error e, tr) =>
        ({ s with errorsSent := s.errorsSent ++ [e] }, tr)
    else
      confirmNotePath cfg pre auth post s (PyVal.vStr (String.intercalate "\n" xs))
  | c => confirmNotePath cfg pre auth post s c

/-- The body of `NoteView.cancel` (src/main.py:181-187): disable the
buttons and edit the message; no backend call. -/
def cancelCallback (s : ViewState) : ViewState × List Ev :=
  ({ s with disabled := true, messageText := "❌ **Nota Descartada**" }, [])

/-- A user press of the confirm button.  The Discord gateway (an external
collaborator, spec §6) delivers a component interaction only while the
message still shows enabled controls; once `confirm`/`cancel` has edited
the message with `child.disabled = True`, a further press produces no
callback invocation, so it is the identity here. -/
def pressConfirm (cfg : Config) (pre auth post : Option KeepErr)
    (s : ViewState) : ViewState × List Ev :=
  if s.disabled then (s, []) else confirmCallback cfg pre auth post s

/-- A user press of the cancel button; same gateway delivery rule as
`pressConfirm`. -/
def pressCancel (s : ViewState) : ViewState × List Ev :=
  if s.disabled then (s, []) else cancelCallback s

/-- The JSON object returned by the LLM, as the handler reads it with
`dict.get`: each of `title` and `type` is either present (a string) or
absent; `content` is read with no default, so a missing key and an
explicit `null` both yield `PyVal.vNone`.  Non-string titles/types are
outside the model; no claim depends on them. -/
structure Analysis where
  title : Option String
  type : Option String
  content : PyVal
deriving DecidableEq

/-- A visible effect of the message handler at the Discord boundary,
plus the outbound LLM call made by `analyze_text`. -/
inductive Effect where
  | react (emoji : String)
  | send (text : String)
  | llmCall (prompt : String)
  | sendPreview (question embedTitle embedDesc footer : String) (view : ViewState)
deriving DecidableEq

/-- The prompt template of `analyze_text` (src/main.py:106-119): fixed
instructions followed by the user text embedded verbatim in quotes.  The
instruction wording is abbreviated here (it contains no program logic
and no claim depends on it); what matters is that the prompt is a fixed
function of the input text. -/
def buildPrompt (text : String) : String :=
  "Analiza el siguiente texto y extrae un titulo y el contenido. " ++
  "Determina si el formato mas adecuado es una NOTA (NOTE) o una LISTA (LIST). " ++
  "Devuelve SOLAMENTE un objeto JSON valido con las claves title, type, content. " ++
  "Texto: \"" ++ text ++ "\""

/-- `analyze_text` (src/main.py:98-138).  `llm` is the Groq completion
oracle (it may raise) and `parse` is the `json.loads` oracle on the
response text.  The whole body is wrapped in `try/except` returning
`None`, so neither an API error nor a parse error escapes, and exactly
one LLM call is made per invocation (no retry). -/
def analyze_text (llm : String → Except PyErr String)
    (parse : String → Except PyErr Analysis) (text : String) :
    Option Analysis × List Effect :=
  let prompt := buildPrompt text
  match llm prompt with
  | Except.error _ => (Option.none, [Effect.llmCall prompt])
  | Except.ok s =>
    match parse s with
    | Except.error _ => (Option.none, [Effect.llmCall prompt])
    | Except.ok d => (some d, [Effect.llmCall prompt])

/-- An inbound Discord message as the handler reads it: whether the
author is the bot itself, the author id, and the text content. -/
structure MsgCtx where
  authorIsBot : Bool
  authorId : Int
  content : String
deriving DecidableEq

/-- The non-LIST preview arm of `on_message` (src/main.py:240-245 and
247-249): join a list content into one string, set the embed description
to the first 2000 characters, and stage the (untruncated) content in a
fresh `NoteView`.  Slicing `None` raises `TypeError`
(`content[:2000]` at src/main.py:244) before any preview is sent. -/
def previewNoteBranch (effs : List Effect) (title noteType : String) (c : PyVal) :
    Except PyErr Unit × List Effect :=
  match c with
  | PyVal.vList xs =>
    let c2 := String.intercalate "\n" xs
    (Except.ok (), effs ++ [Effect.sendPreview "¿Guardar esta nota?"
      ("📝 Preview: " ++ title) (c2.take 2000) "Tipo: Nota" (mkNoteView title (PyVal.vStr c2) noteType)])
  | PyVal.vStr str =>
    (Except.ok (), effs ++ [Effect.sendPreview "¿Guardar esta nota?"
      ("📝 Preview: " ++ title) (str.take 2000) "Tipo: Nota" (mkNoteView title (PyVal.vStr str) noteType)])
  | PyVal.vNone =>
    (Except.error (PyErr.typeError "NoneType object is not subscriptable"), effs)

/-- `on_message` (src/main.py:200-249).  Returns the handler outcome
(`Except.error` models an exception escaping the handler into the
dispatcher) together with the ordered list of visible effects.  The
`add_reaction` call sits in its own `try/except` (src/main.py:211-214),
so it is recorded as attempted and never raises. -/
def on_message (ownerId : Int) (m : MsgCtx) (llm : String → Except PyErr String)
    (parse : String → Except PyErr Analysis) : Except PyErr Unit × List Effect :=
  if m.authorIsBot then (Except.ok (), [])
  else if m.authorId ≠ ownerId then (Except.ok (), [])
  else
    let effs : List Effect := [Effect.react "👀"]
    if m.content = "" then (Except.ok (), effs)
    else
      match analyze_text llm parse m.content with
      | (Option.none, aeffs) =>
        (Except.ok (), effs ++ aeffs ++
          [Effect.react "❌", Effect.send "Error analizando el texto con IA."])
      | (some a, aeffs) =>
        let effs := effs ++ aeffs
        let title := a.title.getD "Nota sin título"
        let noteType := a.type.getD "NOTE"
        match a.content with
        | PyVal.vList xs =>
          if noteType = "LIST" then
            let previewText := String.intercalate "\n" (xs.map (fun item => "• " ++ item))
            (Except.ok (), effs ++ [Effect.sendPreview "¿Guardar esta nota?"
              ("📝 Preview: " ++ title) (previewText.take 2000) "Tipo: Lista"
              (mkNoteView title (PyVal.vList xs) noteType)])
          else previewNoteBranch effs title noteType (PyVal.vList xs)
        | c => previewNoteBranch effs title noteType c

/-- The views staged by the handler, in order: one per `sendPreview`. -/
def stagedViews (effs : List Effect) : List ViewState :=
  effs.filterMap fun e =>
    match e with
    | Effect.sendPreview _ _ _ _ v => some v
    | _ => Option.none

/-- The embed descriptions shown by the handler, in order. -/
def previewDescs (effs : List Effect) : List String :=
  effs.filterMap fun e =>
    match e with
    | Effect.sendPreview _ _ d _ _ => some d
    | _ => Option.none

/-- True exactly on the `loginStart` marker. -/
def isLoginStart : Ev → Bool
  | .loginStart => true
  | _ => false

/-- True exactly on a backend `sync` call. -/
def isSync : Ev → Bool
  | .sync => true
  | _ => false

/-- A concrete LLM oracle that returns the fixed response text `resp`. -/
def llm0 : String → Except PyErr String := fun _ => Except.ok "resp"

/-- A concrete parse oracle producing a well-shaped NOTE dict. -/
def parse0 : String → Except PyErr Analysis :=
  fun _ => Except.ok ⟨some "t", some "NOTE", PyVal.vStr "hola"⟩

/-- A concrete parse oracle that always fails (malformed JSON). -/
def parseFail0 : String → Except PyErr Analysis := fun _ => Except.error (PyErr.exc 0)

/-- A concrete parse oracle producing a dict without the `content` key
(`dict.get` then yields `None`). -/
def parseNoContent : String → Except PyErr Analysis :=
  fun _ => Except.ok ⟨some "t", some "NOTE", PyVal.vNone⟩

/-- A credential configuration with a master token set. -/
def cfgTok : Config := ⟨some "user", Option.none, some "tok"⟩

/-- C7: a message whose author id differs from the authorized principal
produces no visible effect at all: no reaction, no LLM call, no storage
call, and the handler returns normally. -/
theorem C7_unauthorized_no_effects (ownerId : Int) (m : MsgCtx)
    (llm : String → Except PyErr String) (parse : String → Except PyErr Analysis)
    (h : m.authorId ≠ ownerId) :
    on_message ownerId m llm parse = (Except.ok (), []) := by
  cases hb : m.authorIsBot <;> simp [on_message, hb, h]

theorem C7_unauthorized_no_effects_witness :
    (2 : Int) ≠ 1 ∧ on_message 1 ⟨false, 2, "hola"⟩ llm0 parse0 = (Except.ok (), []) :=
  ⟨by decide, C7_unauthorized_no_effects 1 ⟨false, 2, "hola"⟩ llm0 parse0 (by decide)⟩

/-- C9: on an authorized message with empty text, the handler adds the
acknowledgement reaction (it happens before the emptiness check) and
returns: no LLM call, no storage call, no error message. -/
theorem C9_empty_text_react_only (ownerId : Int) (m : MsgCtx)
    (llm : String → Except PyErr String) (parse : String → Except PyErr Analysis)
    (hb : m.authorIsBot = false) (hid : m.authorId = ownerId) (he : m.content = "") :
    on_message ownerId m llm parse = (Except.ok (), [Effect.react "👀"]) := by
  simp [on_message, hb, hid, he]

theorem C9_empty_text_react_only_witness :
    on_message 1 ⟨false, 1, ""⟩ llm0 parse0 = (Except.ok (), [Effect.react "👀"]) :=
  C9_empty_text_react_only 1 ⟨false, 1, ""⟩ llm0 parse0 rfl rfl rfl

/-- C3 (failing input): when the LLM response parses to a dict without a
`content` key, the handler raises an unhandled `TypeError` at the
`content[:2000]` preview slice: it does not complete, and no error
reaction or message is sent to the requester (only the initial 👀 and
the LLM call happened). -/
theorem C3_missing_content_typeerror :
    on_message 1 ⟨false, 1, "hola"⟩ llm0 parseNoContent =
      (Except.error (PyErr.typeError "NoneType object is not subscriptable"),
       [Effect.react "👀", Effect.llmCall (buildPrompt "hola")]) := by
  rfl

/-- The pre-sync/re-login phase never issues a mutating backend call:
its trace holds only `sync`, `loginStart` and `authenticate` events. -/
theorem ensureSync_no_write (cfg : Config) (pre auth : Option KeepErr) :
    ∀ ev ∈ (ensureSyncTr cfg pre auth).2, isWrite ev = false := by
  intro ev hev
  cases pre with
  | none =>
    simp [ensureSyncTr] at hev
    subst hev
    rfl
  | some e =>
    simp only [ensureSyncTr] at hev
    unfold loginTr at hev
    split_ifs at hev <;> simp at hev <;>
      rcases hev with rfl | rfl | rfl <;> rfl

/-- Projecting the text back out of the `(item, False)` pairs returns
the original item list: the conversion preserves order and content. -/
theorem map_fst_pair_false (l : List String) :
    (l.map (fun i => (i, false))).map Prod.fst = l := by
  induction l with
  | nil => rfl
  | cons a as ih => simpa using ih

/-- C6: every `createList` call that `create_list_tr` issues to the
backend carries exactly the input items, in input order, each paired
with `False` (unchecked); and on the plain success path the call is
actually issued. -/
theorem C6_create_list_preserves_order (cfg : Config) (pre auth post : Option KeepErr)
    (title : String) (items : List String) :
    (∀ t its, Ev.createList t its ∈ (create_list_tr cfg pre auth post title items).2 →
      t = title ∧ its = items.map (fun i => (i, false)) ∧
      its.map Prod.fst = items ∧ ∀ p ∈ its, p.2 = false) ∧
    (pre = Option.none →
      Ev.createList title (items.map (fun i => (i, false))) ∈
        (create_list_tr cfg pre auth post title items).2) := by
  constructor
  · intro t its hmem
    have hshape : t = title ∧ its = items.map (fun i => (i, false)) := by
      have hnw := ensureSync_no_write cfg pre auth
      rcases hE : ensureSyncTr cfg pre auth with ⟨r, tr⟩
      rw [hE] at hnw
      cases r with
      | error e =>
        simp only [create_list_tr, hE] at hmem
        exact absurd (hnw _ hmem) (by simp [isWrite])
      | ok u =>
        cases post <;> simp only [create_list_tr, hE, finalSyncTr] at hmem <;>
          rcases List.mem_append.mp hmem with h | h
        all_goals
          first
            | (rcases List.mem_append.mp h with h2 | h2
               · exact absurd (hnw _ h2) (by simp [isWrite])
               · simpa using h2)
            | simp at h
    refine ⟨hshape.1, hshape.2, ?_, ?_⟩
    · rw [hshape.2]
      exact map_fst_pair_false items
    · rw [hshape.2]
      intro p hp
      simp only [List.mem_map] at hp
      obtain ⟨i, _, rfl⟩ := hp
      rfl
  · intro hpre
    subst hpre
    cases post <;> simp [create_list_tr, ensureSyncTr, finalSyncTr]

theorem C6_create_list_preserves_order_witness :
    Ev.createList "Compras" [("leche", false), ("huevos", false), ("pan", false)] ∈
      (create_list_tr cfgTok Option.none Option.none Option.none
        "Compras" ["leche", "huevos", "pan"]).2 :=
  (C6_create_list_preserves_order cfgTok Option.none Option.none Option.none
    "Compras" ["leche", "huevos", "pan"]).2 rfl

/-- C8: whenever the pre-sync phase succeeded and the post-sync fails,
both create operations propagate the post-sync error even though the
local mutation already happened (the `createNote`/`createList` backend
call is in the trace). -/
theorem C8_post_sync_error_propagates (cfg : Config) (pre auth post : Option KeepErr)
    (title : String) (content : PyVal) (items : List String) (e : KeepErr)
    (hens : (ensureSyncTr cfg pre auth).1 = Except.ok ())
    (hpost : post = some e) :
    (create_note_tr cfg pre auth post title content).1 = Except.error e ∧
    Ev.createNote title content ∈ (create_note_tr cfg pre auth post title content).2 ∧
    (create_list_tr cfg pre auth post title items).1 = Except.error e ∧
    Ev.createList title (items.map (fun i => (i, false))) ∈
      (create_list_tr cfg pre auth post title items).2 := by
  subst hpost
  rcases hE : ensureSyncTr cfg pre auth with ⟨r, tr⟩
  rw [hE] at hens
  simp only at hens
  subst hens
  refine ⟨?_, ?_, ?_, ?_⟩ <;>
    simp [create_note_tr, create_list_tr, finalSyncTr, hE]

theorem C8_post_sync_error_propagates_witness :
    (ensureSyncTr cfgTok Option.none Option.none).1 = Except.ok () ∧
    (create_note_tr cfgTok Option.none Option.none (some (KeepErr.syncFail 7))
      "t" (PyVal.vStr "c")).1 = Except.error (KeepErr.syncFail 7) :=
  ⟨rfl, (C8_post_sync_error_propagates cfgTok Option.none Option.none
    (some (KeepErr.syncFail 7)) "t" (PyVal.vStr "c") ["a"] (KeepErr.syncFail 7)
    rfl rfl).1⟩

/-- C5: on confirm, a staged capture with kind LIST and sequence content
is persisted through `create_list` with the sequence as-is; any other
string/sequence content goes through `create_note`, joined by newline if
it was a sequence, verbatim if it was a string. -/
theorem C5_confirm_content_dispatch (cfg : Config) (auth post : Option KeepErr)
    (title noteType : String) (content : PyVal) :
    (∀ xs, content = PyVal.vList xs → noteType = "LIST" →
      ((confirmCallback cfg Option.none auth post
          (mkNoteView title content noteType)).2.filter isWrite)
        = [Ev.createList title (xs.map (fun i => (i, false)))]) ∧
    (∀ xs, content = PyVal.vList xs → noteType ≠ "LIST" →
      ((confirmCallback cfg Option.none auth post
          (mkNoteView title content noteType)).2.filter isWrite)
        = [Ev.createNote title (PyVal.vStr (String.intercalate "\n" xs))]) ∧
    (∀ s, content = PyVal.vStr s →
      ((confirmCallback cfg Option.none auth post
          (mkNoteView title content noteType)).2.filter isWrite)
        = [Ev.createNote title (PyVal.vStr s)]) := by
  refine ⟨?_, ?_, ?_⟩
  · rintro xs rfl rfl
    cases post <;>
      simp [confirmCallback, mkNoteView, create_list_tr, ensureSyncTr, finalSyncTr, isWrite]
  · rintro xs rfl hnt
    cases post <;>
      simp [confirmCallback, mkNoteView, confirmNotePath, create_note_tr, ensureSyncTr,
        finalSyncTr, isWrite, hnt]
  · rintro s rfl
    cases post <;>
      simp [confirmCallback, mkNoteView, confirmNotePath, create_note_tr, ensureSyncTr,
        finalSyncTr, isWrite]

theorem C5_confirm_content_dispatch_witness :
    ((confirmCallback cfgTok Option.none Option.none Option.none
        (mkNoteView "Compras" (PyVal.vList ["leche", "huevos", "pan"]) "LIST")).2.filter isWrite)
      = [Ev.createList "Compras" [("leche", false), ("huevos", false), ("pan", false)]] :=
  (C5_confirm_content_dispatch cfgTok Option.none Option.none "Compras" "LIST"
    (PyVal.vList ["leche", "huevos", "pan"])).1 ["leche", "huevos", "pan"] rfl rfl

/-- C2: once a staged capture has been resolved by a successful confirm,
a second confirm trigger is a no-op: the gateway delivers nothing on the
now-disabled controls, so the second trigger performs no backend call at
all and leaves the displayed state unchanged — two confirms in sequence
make exactly one `createNote`/`createList` backend write. -/
theorem C2_confirm_second_trigger_noop (cfg : Config) (auth pre2 auth2 post2 : Option KeepErr)
    (title noteType : String) (content : PyVal) :
    (((pressConfirm cfg Option.none auth Option.none (mkNoteView title content noteType)).2 ++
        (pressConfirm cfg pre2 auth2 post2
          (pressConfirm cfg Option.none auth Option.none (mkNoteView title content noteType)).1).2).filter
        isWrite).length = 1 ∧
    pressConfirm cfg pre2 auth2 post2
        (pressConfirm cfg Option.none auth Option.none (mkNoteView title content noteType)).1 =
      ((pressConfirm cfg Option.none auth Option.none (mkNoteView title content noteType)).1, []) := by
  cases content <;>
    by_cases hnt : noteType = "LIST" <;>
      simp [pressConfirm, confirmCallback, confirmNotePath, mkNoteView, create_note_tr,
        create_list_tr, ensureSyncTr, finalSyncTr, isWrite, hnt]

/-- C4 (counterexample): with non-empty input and an LLM response that
parses to a dict whose `title` key holds the empty string, `analyze_text`
returns that dict — not the MalformedOutput sentinel `None` — and the
title the handler extracts, even after the absent-key fallback, is
empty. -/
def analysisEmptyTitle : Analysis := ⟨some "", some "NOTE", PyVal.vStr "hola"⟩

theorem C4_empty_title_cex :
    (analyze_text llm0 (fun _ => Except.ok analysisEmptyTitle) "hola").1
      = some analysisEmptyTitle ∧
    analysisEmptyTitle.title.getD "Nota sin título" = "" :=
  ⟨rfl, rfl⟩

/-- C4 (amended): for any input text, `analyze_text` makes exactly one
LLM call and returns either the parsed dict or `None` — an LLM exception
or a JSON parse failure is swallowed into `None` (MalformedOutput) and
never escapes, and no internal retry happens; the title the handler
extracts is non-empty whenever the response's `title` field is absent or
a non-empty string (a present-but-empty title is the one exception,
exhibited by the counterexample). -/
theorem C4_classify_no_exception (llm : String → Except PyErr String)
    (parse : String → Except PyErr Analysis) (text : String) :
    ((analyze_text llm parse text).2 = [Effect.llmCall (buildPrompt text)]) ∧
    (∀ e, llm (buildPrompt text) = Except.error e →
      (analyze_text llm parse text).1 = Option.none) ∧
    (∀ s e, llm (buildPrompt text) = Except.ok s → parse s = Except.error e →
      (analyze_text llm parse text).1 = Option.none) ∧
    (∀ s d, llm (buildPrompt text) = Except.ok s → parse s = Except.ok d →
      (analyze_text llm parse text).1 = some d) ∧
    (∀ d, (analyze_text llm parse text).1 = some d →
      (d.title = Option.none ∨ ∃ t, d.title = some t ∧ t ≠ "") →
      d.title.getD "Nota sin título" ≠ "") := by
  refine ⟨?_, ?_, ?_, ?_, ?_⟩
  · cases h : llm (buildPrompt text) with
    | error e => simp [analyze_text, h]
    | ok s => cases h2 : parse s <;> simp [analyze_text, h, h2]
  · intro e h
    simp [analyze_text, h]
  · intro s e h h2
    simp [analyze_text, h, h2]
  · intro s d h h2
    simp [analyze_text, h, h2]
  · intro d _ hshape
    rcases hshape with h | ⟨t, ht, hne⟩
    · simp [h]
    · simp [ht, hne]

theorem C4_classify_no_exception_witness :
    llm0 (buildPrompt "x") = Except.ok "resp" ∧
    parseFail0 "resp" = Except.error (PyErr.exc 0) ∧
    (analyze_text llm0 parseFail0 "x").1 = Option.none :=
  ⟨rfl, rfl, (C4_classify_no_exception llm0 parseFail0 "x").2.2.1 "resp" (PyErr.exc 0) rfl rfl⟩

/-- C1 (counterexample): with the master-token configuration, let the
pre-sync fail with `syncFail 0`.  If the re-login then fails with
`authFail 1`, `create_note` propagates the login error `authFail 1`, not
the original sync error `syncFail 0`.  And if the re-login succeeds but
the post-sync fails with `syncFail 1`, the call errors instead of
ultimately succeeding. -/
theorem C1_login_error_propagates_cex :
    (create_note_tr cfgTok (some (KeepErr.syncFail 0)) (some (KeepErr.authFail 1))
        Option.none "t" (PyVal.vStr "c")).1 = Except.error (KeepErr.authFail 1) ∧
    KeepErr.authFail 1 ≠ KeepErr.syncFail 0 ∧
    (create_note_tr cfgTok (some (KeepErr.syncFail 0)) Option.none
        (some (KeepErr.syncFail 1)) "t" (PyVal.vStr "c")).1
      = Except.error (KeepErr.syncFail 1) :=
  ⟨rfl, by decide, rfl⟩

/-- C1 (amended): when the pre-sync of `create_note`/`create_list`
fails, `login()` is re-run exactly once (one `loginStart` in the trace)
and the sync is not retried (exactly one `sync` before the mutating
call); if that login fails, the login failure — not the original sync
error — propagates (the failed `authenticate`'s error when credentials
are configured, `noCredentials` otherwise); if the re-login succeeds and
the post-sync also succeeds, the operation ultimately succeeds. -/
theorem C1_presync_relogin_once (cfg : Config) (e1 : KeepErr) (auth post : Option KeepErr)
    (title : String) (content : PyVal) (items : List String) :
    ((create_note_tr cfg (some e1) auth post title content).2.countP isLoginStart = 1 ∧
     (create_list_tr cfg (some e1) auth post title items).2.countP isLoginStart = 1) ∧
    (((create_note_tr cfg (some e1) auth post title content).2.takeWhile
        (fun ev => !isWrite ev)).countP isSync = 1 ∧
     ((create_list_tr cfg (some e1) auth post title items).2.takeWhile
        (fun ev => !isWrite ev)).countP isSync = 1) ∧
    (∀ e2, hasCreds cfg = true → auth = some e2 →
      (create_note_tr cfg (some e1) auth post title content).1 = Except.error e2 ∧
      (create_list_tr cfg (some e1) auth post title items).1 = Except.error e2) ∧
    (hasCreds cfg = false →
      (create_note_tr cfg (some e1) auth post title content).1
          = Except.error KeepErr.noCredentials ∧
      (create_list_tr cfg (some e1) auth post title items).1
          = Except.error KeepErr.noCredentials) ∧
    (hasCreds cfg = true → auth = Option.none → post = Option.none →
      (create_note_tr cfg (some e1) auth post title content).1
          = Except.ok (⟨title, content⟩ : Note) ∧
      (create_list_tr cfg (some e1) auth post title items).1
          = Except.ok (⟨title, items.map (fun i => (i, false))⟩ : GList)) := by
  cases auth <;> cases post <;>
    by_cases htm : truthy cfg.googleMasterToken <;>
      by_cases hup : truthy cfg.googleUser && truthy cfg.googleAppPassword <;>
        simp [create_note_tr, create_list_tr, ensureSyncTr, finalSyncTr, loginTr, hasCreds,
          htm, hup, isLoginStart, isSync, isWrite, List.countP_cons, List.takeWhile,
          List.countP_append]

theorem C1_presync_relogin_once_witness :
    hasCreds cfgTok = true ∧
    (create_note_tr cfgTok (some (KeepErr.syncFail 0)) (some (KeepErr.authFail 1))
        Option.none "t" (PyVal.vStr "c")).1 = Except.error (KeepErr.authFail 1) ∧
    (create_note_tr cfgTok (some (KeepErr.syncFail 0)) Option.none Option.none
        "t" (PyVal.vStr "c")).1 = Except.ok (⟨"t", PyVal.vStr "c"⟩ : Note) :=
  ⟨by decide,
   ((C1_presync_relogin_once cfgTok (KeepErr.syncFail 0) (some (KeepErr.authFail 1))
      Option.none "t" (PyVal.vStr "c") ["a"]).2.2.1 (KeepErr.authFail 1) (by decide) rfl).1,
   ((C1_presync_relogin_once cfgTok (KeepErr.syncFail 0) Option.none Option.none
      "t" (PyVal.vStr "c") ["a"]).2.2.2.2 (by decide) rfl rfl).1⟩

/-- C10: the 2000-character cut applies only to the embed description of
the preview message; the staged view always holds the full content, and
confirming passes that full content to the backend write — for LIST
captures the whole item list, for NOTE captures the whole (possibly
joined) string. -/
theorem C10_truncation_preview_only (ownerId : Int) (m : MsgCtx)
    (llm : String → Except PyErr String) (parse : String → Except PyErr Analysis)
    (s : String) (a : Analysis) (cfg : Config) (auth post : Option KeepErr)
    (hb : m.authorIsBot = false) (hid : m.authorId = ownerId) (hne : m.content ≠ "")
    (hllm : llm (buildPrompt m.content) = Except.ok s) (hp : parse s = Except.ok a) :
    (∀ xs, a.content = PyVal.vList xs → a.type.getD "NOTE" = "LIST" →
      stagedViews (on_message ownerId m llm parse).2
          = [mkNoteView (a.title.getD "Nota sin título") (PyVal.vList xs) "LIST"] ∧
      previewDescs (on_message ownerId m llm parse).2
          = [(String.intercalate "\n" (xs.map (fun item => "• " ++ item))).take 2000] ∧
      ((pressConfirm cfg Option.none auth post
          (mkNoteView (a.title.getD "Nota sin título") (PyVal.vList xs) "LIST")).2.filter isWrite)
          = [Ev.createList (a.title.getD "Nota sin título") (xs.map (fun i => (i, false)))]) ∧
    (∀ str, a.content = PyVal.vStr str →
      stagedViews (on_message ownerId m llm parse).2
          = [mkNoteView (a.title.getD "Nota sin título") (PyVal.vStr str) (a.type.getD "NOTE")] ∧
      previewDescs (on_message ownerId m llm parse).2 = [str.take 2000] ∧
      ((pressConfirm cfg Option.none auth post
          (mkNoteView (a.title.getD "Nota sin título") (PyVal.vStr str) (a.type.getD "NOTE"))).2.filter isWrite)
          = [Ev.createNote (a.title.getD "Nota sin título") (PyVal.vStr str)]) ∧
    (∀ xs, a.content = PyVal.vList xs → a.type.getD "NOTE" ≠ "LIST" →
      stagedViews (on_message ownerId m llm parse).2
          = [mkNoteView (a.title.getD "Nota sin título")
              (PyVal.vStr (String.intercalate "\n" xs)) (a.type.getD "NOTE")] ∧
      previewDescs (on_message ownerId m llm parse).2
          = [(String.intercalate "\n" xs).take 2000] ∧
      ((pressConfirm cfg Option.none auth post
          (mkNoteView (a.title.getD "Nota sin título")
            (PyVal.vStr (String.intercalate "\n" xs)) (a.type.getD "NOTE"))).2.filter isWrite)
          = [Ev.createNote (a.title.getD "Nota sin título")
              (PyVal.vStr (String.intercalate "\n" xs))]) := by
  refine ⟨?_, ?_, ?_⟩
  · intro xs hc ht
    refine ⟨?_, ?_, ?_⟩
    · simp [on_message, analyze_text, hb, hid, hne, hllm, hp, hc, ht, stagedViews]
    · simp [on_message, analyze_text, hb, hid, hne, hllm, hp, hc, ht, previewDescs]
    · cases post <;>
        simp [pressConfirm, confirmCallback, mkNoteView, create_list_tr, ensureSyncTr,
          finalSyncTr, isWrite]
  · intro str hc
    refine ⟨?_, ?_, ?_⟩
    · by_cases ht : a.type.getD "NOTE" = "LIST" <;>
        simp [on_message, analyze_text, previewNoteBranch, hb, hid, hne, hllm, hp, hc, ht,
          stagedViews]
    · by_cases ht : a.type.getD "NOTE" = "LIST" <;>
        simp [on_message, analyze_text, previewNoteBranch, hb, hid, hne, hllm, hp, hc, ht,
          previewDescs]
    · cases post <;>
        simp [pressConfirm, confirmCallback, confirmNotePath, mkNoteView, create_note_tr,
          ensureSyncTr, finalSyncTr, isWrite]
  · intro xs hc ht
    refine ⟨?_, ?_, ?_⟩
    · simp [on_message, analyze_text, previewNoteBranch, hb, hid, hne, hllm, hp, hc, ht,
        stagedViews]
    · simp [on_message, analyze_text, previewNoteBranch, hb, hid, hne, hllm, hp, hc, ht,
        previewDescs]
    · cases post <;>
        simp [pressConfirm, confirmCallback, confirmNotePath, mkNoteView, create_note_tr,
          ensureSyncTr, finalSyncTr, isWrite]

theorem C10_truncation_preview_only_witness :
    (⟨false, (1 : Int), "lista"⟩ : MsgCtx).authorIsBot = false ∧
    stagedViews (on_message 1 ⟨false, 1, "lista"⟩ llm0
        (fun _ => Except.ok ⟨some "Compras", some "LIST", PyVal.vList ["leche", "pan"]⟩)).2
      = [mkNoteView "Compras" (PyVal.vList ["leche", "pan"]) "LIST"] :=
  ⟨rfl,
   ((C10_truncation_preview_only 1 ⟨false, 1, "lista"⟩ llm0
      (fun _ => Except.ok ⟨some "Compras", some "LIST", PyVal.vList ["leche", "pan"]⟩)
      "resp" ⟨some "Compras", some "LIST", PyVal.vList ["leche", "pan"]⟩
      cfgTok Option.none Option.none rfl rfl (by decide) rfl rfl).1
      ["leche", "pan"] rfl rfl).1⟩
